import Mathlib

/-
Verification of the prop-classification logic of
eslint-plugin-next-use-client-boundary.

The repository contains two versions of the rule props-must-be-serializable:
the current one (file src/unnamed/part_002) and an older one
(file src/src/rules/props-must-be-serializable.ts).  Both inspect, for each
property of the props parameter of an exported component, the TypeScript
type object of the property, and decide between three outcomes: no report
(the prop is serializable), a functionNotServerAction report, or an
invalidProp report.

The embedding models the fragment of the TypeScript type API that the rule
consults: getCallSignatures (only its length is used), getConstructSignatures
(only its length), getSymbol (name and declarations, where only whether a
declaration is a class declaration matters), isUnion and isIntersection
together with the constituent list .types.  A type object is therefore
modelled as a node carrying those observables plus a list of constituents.
JavaScript string and regular-expression tests are modelled over the
character list of the string.
-/

/-- Kind of a declaration behind a symbol: the code only asks
ts.isClassDeclaration(declaration), so two kinds suffice. -/
inductive TsDeclKind where
  | classDeclaration
  | otherDeclaration
deriving DecidableEq

/-- Model of ts.Symbol as consulted by the rule: getName() and
getDeclarations(), the latter possibly undefined. -/
structure TsSymbol where
  name : String
  declarations : Option (List TsDeclKind)
deriving DecidableEq

/-- Whether a type object answers true to isUnion(), to isIntersection(),
or to neither. -/
inductive CompositeKind where
  | atom
  | union
  | intersection
deriving DecidableEq

/-- Model of ts.Type as consulted by the rule: the number of call
signatures, the number of construct signatures, the optional symbol, the
composite kind, and the constituent list (read only behind isUnion or
isIntersection checks in the code). -/
inductive TsType where
  | mk (callSignatures : Nat) (constructSignatures : Nat)
      (symbol : Option TsSymbol) (kind : CompositeKind) (types : List TsType)

/-- Accessor matching type.getCallSignatures().length. -/
def TsType.getCallSignatures : TsType → Nat
  | .mk cs _ _ _ _ => cs

/-- Accessor matching type.getConstructSignatures().length. -/
def TsType.getConstructSignatures : TsType → Nat
  | .mk _ ks _ _ _ => ks

/-- Accessor matching type.getSymbol(). -/
def TsType.getSymbol : TsType → Option TsSymbol
  | .mk _ _ s _ _ => s

/-- Accessor matching type.isUnion(). -/
def TsType.isUnion : TsType → Bool
  | .mk _ _ _ k _ => k == .union

/-- Accessor matching type.isIntersection(). -/
def TsType.isIntersection : TsType → Bool
  | .mk _ _ _ k _ => k == .intersection

/-- Accessor matching type.types, the constituents of a union or
intersection type. -/
def TsType.types : TsType → List TsType
  | .mk _ _ _ _ ts => ts

/-- JavaScript String.prototype.endsWith, modelled on character lists.
Also the model of an end-anchored regular-expression literal test. -/
def strEndsWith (s t : String) : Bool :=
  t.data.isSuffixOf s.data

/-- Model of the test /Action$/.test(propName) in validateComponentProps
(both versions): the string contains Action ending at its last position,
i.e. ends with Action. -/
def testActionSuffix (propName : String) : Bool :=
  strEndsWith propName "Action"

/-- Model of the test /[\\/](global-)?error\.tsx?$/.test(filename) in
validateComponentProps (both versions).  The regular expression matches a
string exactly when the string ends with a path separator (slash or
backslash) followed by an optional global- prefix, then error.ts or
error.tsx at the very end; the finitely many matching suffixes are
enumerated. -/
def testErrorFilePath (filename : String) : Bool :=
  [ "/error.ts", "/error.tsx", "/global-error.ts", "/global-error.tsx",
    "\\error.ts", "\\error.tsx", "\\global-error.ts", "\\global-error.tsx"
  ].any (fun t => strEndsWith filename t)

/-- The SERIALIZABLE_BUILT_INS set of src/unnamed/part_002, lines 256 to
289, as the literal list of its members. -/
def SERIALIZABLE_BUILT_INS : List String :=
  [ "Date",
    "Map",
    "Set",
    "Promise",
    "RegExp",
    "Error",
    "EvalError",
    "RangeError",
    "ReferenceError",
    "SyntaxError",
    "TypeError",
    "URIError",
    "ArrayBuffer",
    "Int8Array",
    "Uint8Array",
    "Uint8ClampedArray",
    "Int16Array",
    "Uint16Array",
    "Int32Array",
    "Uint32Array",
    "Float32Array",
    "Float64Array",
    "BigInt64Array",
    "BigUint64Array",
    "DataView",
    "Blob",
    "File",
    "FileList",
    "ImageData",
    "ImageBitmap",
    "Array",
    "Object" ]

/-- Function isSerializableBuiltIn of src/unnamed/part_002, lines 330 to
338: false when the type has no symbol, otherwise membership of the symbol
name in SERIALIZABLE_BUILT_INS. -/
def isSerializableBuiltIn (t : TsType) : Bool :=
  match t.getSymbol with
  | none => false
  | some symbol => SERIALIZABLE_BUILT_INS.contains symbol.name

/-- The symbol-and-declarations walk shared by both versions of
isClassType: the symbol exists, its declarations resolve, and the loop over
them finds a class declaration. -/
def hasClassDeclaration (symbol : Option TsSymbol) : Bool :=
  match symbol with
  | none => false
  | some s =>
    match s.declarations with
    | none => false
    | some decls => decls.contains .classDeclaration

mutual

/-- Function isFunctionType of src/unnamed/part_002, lines 236 to 251:
true when the type has a call signature, otherwise recurse into the
constituents of a union, otherwise of an intersection, otherwise false. -/
def isFunctionType : TsType → Bool
  | .mk cs _ _ k ts =>
    if cs > 0 then true
    else if k == .union then anyIsFunctionType ts
    else if k == .intersection then anyIsFunctionType ts
    else false

/-- The call type.types.some(t =&gt; isFunctionType(t, checker)) of
src/unnamed/part_002, with short-circuit evaluation in constituent order. -/
def anyIsFunctionType : List TsType → Bool
  | [] => false
  | t :: rest => isFunctionType t || anyIsFunctionType rest

end

mutual

/-- Function isClassType of src/unnamed/part_002, lines 291 to 328: a type
with construct signatures is a class type unless allowlisted; else a type
whose symbol has a class declaration is a class type unless allowlisted;
else recurse into union constituents, then intersection constituents;
else false. -/
def isClassType : TsType → Bool
  | t@(.mk _ ks symbol k ts) =>
    if ks > 0 then !(isSerializableBuiltIn t)
    else if hasClassDeclaration symbol then !(isSerializableBuiltIn t)
    else if k == .union then anyIsClassType ts
    else if k == .intersection then anyIsClassType ts
    else false

/-- The call type.types.some(t =&gt; isClassType(t, checker)) of
src/unnamed/part_002. -/
def anyIsClassType : List TsType → Bool
  | [] => false
  | t :: rest => isClassType t || anyIsClassType rest

end

mutual

/-- Function isFunctionType of src/src/rules/props-must-be-serializable.ts,
lines 225 to 236: the older version, which recurses into unions only and
never into intersections. -/
def isFunctionTypeOld : TsType → Bool
  | .mk cs _ _ k ts =>
    if cs > 0 then true
    else if k == .union then anyIsFunctionTypeOld ts
    else false

/-- Constituent walk of the older isFunctionType. -/
def anyIsFunctionTypeOld : List TsType → Bool
  | [] => false
  | t :: rest => isFunctionTypeOld t || anyIsFunctionTypeOld rest

end

mutual

/-- Function isClassType of src/src/rules/props-must-be-serializable.ts,
lines 238 to 261: the older version, which consults no allowlist and
recurses into unions only. -/
def isClassTypeOld : TsType → Bool
  | .mk _ ks symbol k ts =>
    if ks > 0 then true
    else if hasClassDeclaration symbol then true
    else if k == .union then anyIsClassTypeOld ts
    else false

/-- Constituent walk of the older isClassType. -/
def anyIsClassTypeOld : List TsType → Bool
  | [] => false
  | t :: rest => isClassTypeOld t || anyIsClassTypeOld rest

end

/-- The three possible outcomes for one prop: no report, a
functionNotServerAction report, or an invalidProp report. -/
inductive Verdict where
  | Serializable
  | FunctionNotAction
  | InvalidClass
deriving DecidableEq

/-- Per-prop decision of validateComponentProps in src/unnamed/part_002,
lines 183 to 211: when the prop type is a function type, the prop is
allowed when its name is action, ends with Action, or is reset inside an
error-boundary file, and is otherwise reported as functionNotServerAction;
when the prop type is not a function type but is a class type, it is
reported as invalidProp; otherwise nothing is reported. -/
def classifyProp (propName : String) (propType : TsType) (filename : String) : Verdict :=
  if isFunctionType propType then
    if propName == "action" || testActionSuffix propName then .Serializable
    else if propName == "reset" && testErrorFilePath filename then .Serializable
    else .FunctionNotAction
  else if isClassType propType then .InvalidClass
  else .Serializable

/-- Per-prop decision of validateComponentProps in
src/src/rules/props-must-be-serializable.ts, lines 176 to 221, built on
the older isFunctionType and isClassType; the naming exceptions are
identical to the current version. -/
def classifyPropOld (propName : String) (propType : TsType) (filename : String) : Verdict :=
  if isFunctionTypeOld propType then
    if propName == "action" || testActionSuffix propName then .Serializable
    else if propName == "reset" && testErrorFilePath filename then .Serializable
    else .FunctionNotAction
  else if isClassTypeOld propType then .InvalidClass
  else .Serializable

mutual

/-- Depth of a type tree: one more than the depth of the deepest
constituent. -/
def depthT : TsType → Nat
  | .mk _ _ _ _ ts => depthList ts + 1

/-- Depth of the deepest member of a constituent list. -/
def depthList : List TsType → Nat
  | [] => 0
  | t :: rest => max (depthT t) (depthList rest)

end

mutual

/-- Fuel-bounded evaluator for isFunctionType: returns none when the fuel
runs out before the recursion over union and intersection constituents
bottoms out, and some of the answer otherwise. -/
def isFunctionTypeFuel : Nat → TsType → Option Bool
  | 0, _ => none
  | fuel + 1, .mk cs _ _ k ts =>
    if cs > 0 then some true
    else if k == .union then anyIsFunctionTypeFuel fuel ts
    else if k == .intersection then anyIsFunctionTypeFuel fuel ts
    else some false

/-- Fuel-bounded constituent walk for isFunctionTypeFuel. -/
def anyIsFunctionTypeFuel : Nat → List TsType → Option Bool
  | _, [] => some false
  | fuel, t :: rest =>
    match isFunctionTypeFuel fuel t with
    | none => none
    | some true => some true
    | some false => anyIsFunctionTypeFuel fuel rest

end

mutual

/-- Fuel-bounded evaluator for isClassType. -/
def isClassTypeFuel : Nat → TsType → Option Bool
  | 0, _ => none
  | fuel + 1, t@(.mk _ ks symbol k ts) =>
    if ks > 0 then some (!(isSerializableBuiltIn t))
    else if hasClassDeclaration symbol then some (!(isSerializableBuiltIn t))
    else if k == .union then anyIsClassTypeFuel fuel ts
    else if k == .intersection then anyIsClassTypeFuel fuel ts
    else some false

/-- Fuel-bounded constituent walk for isClassTypeFuel. -/
def anyIsClassTypeFuel : Nat → List TsType → Option Bool
  | _, [] => some false
  | fuel, t :: rest =>
    match isClassTypeFuel fuel t with
    | none => none
    | some true => some true
    | some false => anyIsClassTypeFuel fuel rest

end

/-- Fuel-bounded per-prop decision: propagates fuel exhaustion from the
two recursive type walks and otherwise computes the verdict the way
classifyProp does. -/
def classifyPropFuel (fuel : Nat) (propName : String) (propType : TsType)
    (filename : String) : Option Verdict :=
  match isFunctionTypeFuel fuel propType with
  | none => none
  | some true =>
    if propName == "action" || testActionSuffix propName then some .Serializable
    else if propName == "reset" && testErrorFilePath filename then some .Serializable
    else some .FunctionNotAction
  | some false =>
    match isClassTypeFuel fuel propType with
    | none => none
    | some true => some .InvalidClass
    | some false => some .Serializable

/-- OnPath u t holds when u lies strictly below t in the constituent tree,
i.e. when a recursive classification of t reaches u on its active call
path through union and intersection constituents. -/
inductive OnPath : TsType → TsType → Prop where
  | branch {t u : TsType} : u ∈ t.types → OnPath u t
  | step {t u v : TsType} : u ∈ t.types → OnPath v u → OnPath v t

mutual

/-- True when no node of the type tree answers true to isIntersection. -/
def noIntersectionT : TsType → Bool
  | .mk _ _ _ k ts => (k != .intersection) && noIntersectionList ts

/-- Constituent walk for noIntersectionT. -/
def noIntersectionList : List TsType → Bool
  | [] => true
  | t :: rest => noIntersectionT t && noIntersectionList rest

end

mutual

/-- True when no node of the type tree carries a symbol whose name is in
SERIALIZABLE_BUILT_INS, so the allowlist of the current version can never
fire on the tree. -/
def noAllowlistedT : TsType → Bool
  | t@(.mk _ _ _ _ ts) => !(isSerializableBuiltIn t) && noAllowlistedList ts

/-- Constituent walk for noAllowlistedT. -/
def noAllowlistedList : List TsType → Bool
  | [] => true
  | t :: rest => noAllowlistedT t && noAllowlistedList rest

end

/-- Bridge between the explicit constituent walk and List.any. -/
theorem anyIsFunctionType_eq_any (ts : List TsType) :
    anyIsFunctionType ts = ts.any isFunctionType := by
  induction ts with
  | nil => rfl
  | cons t rest ih => simp [anyIsFunctionType, ih]

/-- Bridge between the explicit constituent walk and List.any. -/
theorem anyIsClassType_eq_any (ts : List TsType) :
    anyIsClassType ts = ts.any isClassType := by
  induction ts with
  | nil => rfl
  | cons t rest ih => simp [anyIsClassType, ih]

/-- On a union or intersection node with no call signatures, isFunctionType
is the disjunction over the constituents. -/
theorem isFunctionType_composite (ks : Nat) (s : Option TsSymbol)
    (k : CompositeKind) (ts : List TsType)
    (hk : k = CompositeKind.union ∨ k = CompositeKind.intersection) :
    isFunctionType (.mk 0 ks s k ts) = ts.any isFunctionType := by
  rw [← anyIsFunctionType_eq_any]
  rcases hk with rfl | rfl <;> rfl

/-- On a union or intersection node with no construct signatures and no
symbol, isClassType is the disjunction over the constituents. -/
theorem isClassType_composite (cs : Nat) (k : CompositeKind) (ts : List TsType)
    (hk : k = CompositeKind.union ∨ k = CompositeKind.intersection) :
    isClassType (.mk cs 0 none k ts) = ts.any isClassType := by
  rw [← anyIsClassType_eq_any]
  rcases hk with rfl | rfl <;> rfl

/-- C1. The claim states the branch-order rule of the spec: the verdict of
a union or intersection is the verdict of the first disqualifying branch in
branch order.  The code instead asks first whether any branch is callable
and only then whether any branch is class-like.  At this concrete input the
first disqualifying branch is a non-allowlisted class instance whose own
verdict is InvalidClass, yet the composite verdict is FunctionNotAction
because a later branch is callable, refuting the branch-order rule. -/
theorem C1_branch_order_counterexample :
    classifyProp "onClick"
        (TsType.mk 0 0 (some ⟨"MyClass", some [.classDeclaration]⟩) .atom [])
        "component.tsx" = Verdict.InvalidClass ∧
    classifyProp "onClick" (TsType.mk 1 0 none .atom [])
        "component.tsx" = Verdict.FunctionNotAction ∧
    classifyProp "onClick"
        (TsType.mk 0 0 none .union
          [ TsType.mk 0 0 (some ⟨"MyClass", some [.classDeclaration]⟩) .atom [],
            TsType.mk 1 0 none .atom [] ])
        "component.tsx" = Verdict.FunctionNotAction ∧
    classifyProp "onClick"
        (TsType.mk 0 0 none .union
          [ TsType.mk 0 0 (some ⟨"MyClass", some [.classDeclaration]⟩) .atom [],
            TsType.mk 1 0 none .atom [] ])
        "component.tsx" ≠
      classifyProp "onClick"
        (TsType.mk 0 0 (some ⟨"MyClass", some [.classDeclaration]⟩) .atom [])
        "component.tsx" := by
  refine ⟨?_, ?_, ?_, ?_⟩ <;> decide

/-- C1 (amended). For a union or intersection node (with no signatures and
no symbol of its own, as produced by the type checker), the verdict is
decided by two-phase dispatch rather than branch order: when any branch is
recursively callable the whole composite is treated as function-shaped and
the naming exceptions decide between Serializable and FunctionNotAction;
otherwise, when any branch is recursively class-like, the verdict is
InvalidClass; otherwise it is Serializable.  The same field name and file
context are used throughout. -/
theorem C1_composite_two_phase_dispatch (propName filename : String)
    (k : CompositeKind) (branches : List TsType)
    (hk : k = CompositeKind.union ∨ k = CompositeKind.intersection) :
    classifyProp propName (TsType.mk 0 0 none k branches) filename =
      if branches.any isFunctionType then
        if propName == "action" || testActionSuffix propName then Verdict.Serializable
        else if propName == "reset" && testErrorFilePath filename then Verdict.Serializable
        else Verdict.FunctionNotAction
      else if branches.any isClassType then Verdict.InvalidClass
      else Verdict.Serializable := by
  simp only [classifyProp, isFunctionType_composite 0 none k branches hk,
    isClassType_composite 0 k branches hk]

/-- Witness for C1 (amended): a union with a single callable branch and a
field name without the action exception is FunctionNotAction. -/
theorem C1_composite_two_phase_dispatch_witness :
    classifyProp "onClick"
        (TsType.mk 0 0 none .union [TsType.mk 1 0 none .atom []])
        "component.tsx" = Verdict.FunctionNotAction :=
  (C1_composite_two_phase_dispatch "onClick" "component.tsx" .union
      [TsType.mk 1 0 none .atom []] (Or.inl rfl)).trans (by decide)

/-- C2. For a type that is simultaneously callable and class-like, when the
field name triggers neither the action nor the reset exception, the verdict
is FunctionNotAction and never InvalidClass: the call-signature test runs
strictly before the class test. -/
theorem C2_function_test_first (propName filename : String) (t : TsType)
    (hf : isFunctionType t = true) (_hc : isClassType t = true)
    (hname : (propName == "action" || testActionSuffix propName) = false)
    (hreset : (propName == "reset" && testErrorFilePath filename) = false) :
    classifyProp propName t filename = Verdict.FunctionNotAction := by
  simp [classifyProp, hf, hname, hreset]

/-- Witness for C2: a type with one call signature, one construct signature
and a class declaration behind a non-allowlisted symbol. -/
theorem C2_function_test_first_witness :
    classifyProp "onClick"
        (TsType.mk 1 1 (some ⟨"Weird", some [.classDeclaration]⟩) .atom [])
        "component.tsx" = Verdict.FunctionNotAction :=
  C2_function_test_first "onClick" "component.tsx"
    (TsType.mk 1 1 (some ⟨"Weird", some [.classDeclaration]⟩) .atom [])
    (by decide) (by decide) (by decide) (by decide)

/-- On a class-shaped type (construct signatures, or a class declaration
behind the symbol), isClassType is exactly the negation of the allowlist
test. -/
theorem isClassType_of_classShape (t : TsType)
    (h : 0 < t.getConstructSignatures ∨ hasClassDeclaration t.getSymbol = true) :
    isClassType t = !(isSerializableBuiltIn t) := by
  cases t with
  | mk cs ks s k ts =>
    rcases h with h | h
    · simp only [TsType.getConstructSignatures] at h
      simp [isClassType, h]
    · simp only [TsType.getSymbol] at h
      simp [isClassType, h]

/-- C3. For a class-instance or constructor-shaped field that is not
callable, the verdict is Serializable exactly when the nominal name is in
SERIALIZABLE_BUILT_INS and InvalidClass otherwise; membership is exact
case-sensitive string equality, and the allowlist contains the stated
minimum set of names. -/
theorem C3_allowlist_decides_class_verdict (propName filename : String) (t : TsType)
    (hnf : isFunctionType t = false)
    (hshape : 0 < t.getConstructSignatures ∨ hasClassDeclaration t.getSymbol = true) :
    (classifyProp propName t filename =
      if isSerializableBuiltIn t then Verdict.Serializable else Verdict.InvalidClass) ∧
    ([ "Date", "Map", "Set", "Promise", "RegExp",
       "Error", "EvalError", "RangeError", "ReferenceError", "SyntaxError",
       "TypeError", "URIError",
       "ArrayBuffer", "Int8Array", "Uint8Array", "Uint8ClampedArray",
       "Int16Array", "Uint16Array", "Int32Array", "Uint32Array",
       "Float32Array", "Float64Array", "BigInt64Array", "BigUint64Array",
       "DataView", "Blob", "File", "FileList", "ImageData", "ImageBitmap",
       "Array", "Object" ].all
        (fun n => SERIALIZABLE_BUILT_INS.contains n)) = true ∧
    SERIALIZABLE_BUILT_INS.contains "date" = false := by
  refine ⟨?_, by decide, by decide⟩
  have hct := isClassType_of_classShape t hshape
  cases hb : isSerializableBuiltIn t <;>
    simp [classifyProp, hnf, hct, hb]

/-- Witness for C3: a non-allowlisted class instance is InvalidClass. -/
theorem C3_allowlist_decides_class_verdict_witness :
    classifyProp "instance"
        (TsType.mk 0 0 (some ⟨"MyClass", some [.classDeclaration]⟩) .atom [])
        "component.tsx" =
      if isSerializableBuiltIn
          (TsType.mk 0 0 (some ⟨"MyClass", some [.classDeclaration]⟩) .atom [])
        then Verdict.Serializable else Verdict.InvalidClass :=
  (C3_allowlist_decides_class_verdict "instance" "component.tsx"
    (TsType.mk 0 0 (some ⟨"MyClass", some [.classDeclaration]⟩) .atom [])
    (by decide) (Or.inr (by decide))).1

/-- C4. A function-shaped field named exactly action, or whose name has a
nonempty prefix followed by the exact suffix Action, is Serializable in
every file context. -/
theorem C4_action_names_serializable (propName filename : String) (t : TsType)
    (hf : isFunctionType t = true)
    (hname : propName = "action" ∨
      (strEndsWith propName "Action" = true ∧ 6 < propName.length)) :
    classifyProp propName t filename = Verdict.Serializable := by
  rcases hname with rfl | ⟨h1, _⟩
  · simp [classifyProp, hf]
  · simp [classifyProp, hf, testActionSuffix, h1]

/-- Witness for C4: submitAction on a callable type in an ordinary file. -/
theorem C4_action_names_serializable_witness :
    classifyProp "submitAction" (TsType.mk 1 0 none .atom [])
      "component.tsx" = Verdict.Serializable :=
  C4_action_names_serializable "submitAction" "component.tsx"
    (TsType.mk 1 0 none .atom []) (by decide) (Or.inr ⟨by decide, by decide⟩)

/-- C5. A function-shaped field named reset is Serializable exactly when
the file path ends with error.ts or error.tsx, optionally prefixed with
global-, immediately after a path separator; with any other path it is
FunctionNotAction. -/
theorem C5_reset_error_boundary (filename : String) (t : TsType)
    (hf : isFunctionType t = true) :
    classifyProp "reset" t filename =
      if testErrorFilePath filename then Verdict.Serializable
      else Verdict.FunctionNotAction := by
  have h1 : (("reset" : String) == "action" || testActionSuffix "reset") = false := by decide
  have h2 : (("reset" : String) == "reset") = true := by decide
  have h3 : testActionSuffix "reset" = false := by decide
  cases h : testErrorFilePath filename <;>
    simp [classifyProp, hf, h1, h2, h3, h]

/-- Witness for C5: reset in app/error.tsx. -/
theorem C5_reset_error_boundary_witness :
    classifyProp "reset" (TsType.mk 1 0 none .atom []) "app/error.tsx" =
      if testErrorFilePath "app/error.tsx" then Verdict.Serializable
      else Verdict.FunctionNotAction :=
  C5_reset_error_boundary "app/error.tsx" (TsType.mk 1 0 none .atom []) (by decide)

/-- C6. Classification is total: every input yields exactly one of the
three verdicts, and a malformed type description (no signatures, and a
symbol that is absent or has no resolvable declarations) falls back to
Serializable, never to a non-Serializable verdict. -/
theorem C6_total_and_fail_open (propName filename : String) (osym : Option TsSymbol)
    (h : osym = none ∨ ∃ s : TsSymbol, osym = some s ∧ s.declarations = none) :
    classifyProp propName (TsType.mk 0 0 osym .atom []) filename = Verdict.Serializable ∧
    ∀ t : TsType,
      classifyProp propName t filename = Verdict.Serializable ∨
      classifyProp propName t filename = Verdict.FunctionNotAction ∨
      classifyProp propName t filename = Verdict.InvalidClass := by
  constructor
  · have hcd : hasClassDeclaration osym = false := by
      rcases h with rfl | ⟨s, rfl, hd⟩
      · rfl
      · simp [hasClassDeclaration, hd]
    have hft : isFunctionType (TsType.mk 0 0 osym .atom []) = false := rfl
    have hct : isClassType (TsType.mk 0 0 osym .atom []) = false := by
      simp [isClassType, hcd]
    simp [classifyProp, hft, hct]
  · intro t
    cases hv : classifyProp propName t filename with
    | Serializable => exact Or.inl rfl
    | FunctionNotAction => exact Or.inr (Or.inl rfl)
    | InvalidClass => exact Or.inr (Or.inr rfl)

/-- Witness for C6: a symbol named Broken whose declarations do not
resolve is classified Serializable. -/
theorem C6_total_and_fail_open_witness :
    classifyProp "data" (TsType.mk 0 0 (some ⟨"Broken", none⟩) .atom [])
      "component.tsx" = Verdict.Serializable :=
  (C6_total_and_fail_open "data" "component.tsx" (some ⟨"Broken", none⟩)
    (Or.inr ⟨⟨"Broken", none⟩, rfl, rfl⟩)).1

/-- Every member of a constituent list is at most as deep as the list. -/
theorem depthT_le_of_mem {u : TsType} :
    ∀ {ts : List TsType}, u ∈ ts → depthT u ≤ depthList ts
  | a :: rest, h => by
    rcases List.mem_cons.mp h with rfl | h2
    · simp [depthList]
    · exact le_trans (depthT_le_of_mem h2) (by simp [depthList])

/-- Depth strictly decreases along the active recursion path, so no type
node can reappear below itself. -/
theorem depthT_lt_of_onPath {u t : TsType} (h : OnPath u t) : depthT u < depthT t := by
  induction h with
  | @branch t u hm =>
    cases t with
    | mk cs ks s k ts =>
      simp only [TsType.types] at hm
      have hle := depthT_le_of_mem hm
      simp only [depthT]
      omega
  | @step t u v hm hp ih =>
    cases t with
    | mk cs ks s k ts =>
      simp only [TsType.types] at hm
      have hle := depthT_le_of_mem hm
      simp only [depthT]
      omega

/-- Fuel equal to the depth of the tree is enough for the fuelled
isFunctionType to return an answer, and the answer is the one of the
recursive definition. -/
theorem isFunctionTypeFuel_adequate :
    ∀ fuel : Nat,
      (∀ t : TsType, depthT t ≤ fuel →
        isFunctionTypeFuel fuel t = some (isFunctionType t)) ∧
      (∀ ts : List TsType, depthList ts ≤ fuel →
        anyIsFunctionTypeFuel fuel ts = some (anyIsFunctionType ts)) := by
  intro fuel
  induction fuel with
  | zero =>
    constructor
    · intro t h
      cases t with
      | mk cs ks s k ts => simp only [depthT] at h; omega
    · intro ts h
      cases ts with
      | nil => simp [anyIsFunctionTypeFuel, anyIsFunctionType]
      | cons t rest =>
        exfalso
        have h1 : depthT t ≤ 0 :=
          le_trans (Nat.le_max_left _ _) (by simpa [depthList] using h)
        cases t with
        | mk cs ks s k ts2 => simp only [depthT] at h1; omega
  | succ fuel ih =>
    have pf : ∀ t : TsType, depthT t ≤ fuel + 1 →
        isFunctionTypeFuel (fuel + 1) t = some (isFunctionType t) := by
      intro t h
      cases t with
      | mk cs ks s k ts =>
        have hts : depthList ts ≤ fuel := by simp only [depthT] at h; omega
        have hrec := ih.2 ts hts
        by_cases hcs : cs > 0
        · simp [isFunctionTypeFuel, isFunctionType, hcs]
        · cases k <;> simp [isFunctionTypeFuel, isFunctionType, hcs, hrec]
    refine ⟨pf, ?_⟩
    intro ts
    induction ts with
    | nil => intro _; simp [anyIsFunctionTypeFuel, anyIsFunctionType]
    | cons t rest ihl =>
      intro h
      have h1 : depthT t ≤ fuel + 1 :=
        le_trans (Nat.le_max_left _ _) (by simpa [depthList] using h)
      have h2 : depthList rest ≤ fuel + 1 :=
        le_trans (Nat.le_max_right _ _) (by simpa [depthList] using h)
      have e1 := pf t h1
      have e2 := ihl h2
      simp only [anyIsFunctionTypeFuel, anyIsFunctionType, e1]
      cases hb : isFunctionType t <;> simp [hb, e2]

/-- Fuel equal to the depth of the tree is enough for the fuelled
isClassType to return an answer, and the answer is the one of the
recursive definition. -/
theorem isClassTypeFuel_adequate :
    ∀ fuel : Nat,
      (∀ t : TsType, depthT t ≤ fuel →
        isClassTypeFuel fuel t = some (isClassType t)) ∧
      (∀ ts : List TsType, depthList ts ≤ fuel →
        anyIsClassTypeFuel fuel ts = some (anyIsClassType ts)) := by
  intro fuel
  induction fuel with
  | zero =>
    constructor
    · intro t h
      cases t with
      | mk cs ks s k ts => simp only [depthT] at h; omega
    · intro ts h
      cases ts with
      | nil => simp [anyIsClassTypeFuel, anyIsClassType]
      | cons t rest =>
        exfalso
        have h1 : depthT t ≤ 0 :=
          le_trans (Nat.le_max_left _ _) (by simpa [depthList] using h)
        cases t with
        | mk cs ks s k ts2 => simp only [depthT] at h1; omega
  | succ fuel ih =>
    have pf : ∀ t : TsType, depthT t ≤ fuel + 1 →
        isClassTypeFuel (fuel + 1) t = some (isClassType t) := by
      intro t h
      cases t with
      | mk cs ks s k ts =>
        have hts : depthList ts ≤ fuel := by simp only [depthT] at h; omega
        have hrec := ih.2 ts hts
        by_cases hks : ks > 0
        · simp [isClassTypeFuel, isClassType, hks]
        · cases hcd : hasClassDeclaration s <;>
            cases k <;> simp [isClassTypeFuel, isClassType, hks, hcd, hrec]
    refine ⟨pf, ?_⟩
    intro ts
    induction ts with
    | nil => intro _; simp [anyIsClassTypeFuel, anyIsClassType]
    | cons t rest ihl =>
      intro h
      have h1 : depthT t ≤ fuel + 1 :=
        le_trans (Nat.le_max_left _ _) (by simpa [depthList] using h)
      have h2 : depthList rest ≤ fuel + 1 :=
        le_trans (Nat.le_max_right _ _) (by simpa [depthList] using h)
      have e1 := pf t h1
      have e2 := ihl h2
      simp only [anyIsClassTypeFuel, anyIsClassType, e1]
      cases hb : isClassType t <;> simp [hb, e2]

set_option maxRecDepth 4000 in
/-- The fuelled classifier with fuel equal to the depth of the type tree
returns the verdict of classifyProp. -/
theorem classifyPropFuel_adequate (propName filename : String) (t : TsType) :
    classifyPropFuel (depthT t) propName t filename =
      some (classifyProp propName t filename) := by
  have e1 := (isFunctionTypeFuel_adequate (depthT t)).1 t (le_refl _)
  have e2 := (isClassTypeFuel_adequate (depthT t)).1 t (le_refl _)
  cases hf : isFunctionType t with
  | true =>
    rw [hf] at e1
    by_cases hA : (propName == "action" || testActionSuffix propName) = true
    · simp [classifyPropFuel, classifyProp, e1, hf, hA]
    · by_cases hB : (propName == "reset" && testErrorFilePath filename) = true
      · simp [classifyPropFuel, classifyProp, e1, hf, hA, hB]
      · simp [classifyPropFuel, classifyProp, e1, hf, hA, hB]
  | false =>
    rw [hf] at e1
    cases hc : isClassType t <;> rw [hc] at e2 <;>
      simp [classifyPropFuel, classifyProp, e1, e2, hf, hc]

/-- C7. Recursion over unions and intersections terminates on every input:
the fuelled evaluator, which gives up when its step budget is exhausted,
already returns the classifyProp verdict when given fuel equal to the depth
of the type tree; and the depth strictly decreases along the active
recursion path, so the classifier never revisits a type node already on
that path.  In this embedding type graphs are finite trees, so a branch
that cycles back into a node on the active path cannot be represented and
the conservative Serializable fallback for a detected cycle is never
exercised. -/
theorem C7_terminates_no_revisit :
    (∀ (propName filename : String) (t : TsType),
      classifyPropFuel (depthT t) propName t filename =
        some (classifyProp propName t filename)) ∧
    (∀ t u : TsType, OnPath u t → depthT u < depthT t) := by
  exact ⟨fun propName filename t => classifyPropFuel_adequate propName filename t,
    fun t u h => depthT_lt_of_onPath h⟩

/-- Witness for C7: the fuelled evaluator answers on a concrete union, and
a constituent is strictly shallower than its parent. -/
theorem C7_terminates_no_revisit_witness :
    classifyPropFuel (depthT (TsType.mk 0 0 none .union [TsType.mk 1 0 none .atom []]))
        "onClick" (TsType.mk 0 0 none .union [TsType.mk 1 0 none .atom []])
        "component.tsx" =
      some (classifyProp "onClick"
        (TsType.mk 0 0 none .union [TsType.mk 1 0 none .atom []]) "component.tsx") ∧
    depthT (TsType.mk 1 0 none .atom []) <
      depthT (TsType.mk 0 0 none .union [TsType.mk 1 0 none .atom []]) :=
  ⟨C7_terminates_no_revisit.1 "onClick" "component.tsx" _,
   C7_terminates_no_revisit.2 _ _ (OnPath.branch (by simp [TsType.types]))⟩

mutual

/-- On trees without intersection nodes the two versions of isFunctionType
agree. -/
theorem isFunctionTypeOld_eq_new : ∀ t : TsType, noIntersectionT t = true →
    isFunctionTypeOld t = isFunctionType t
  | .mk cs ks s k ts, h => by
    have hparts : (k != CompositeKind.intersection) = true ∧
        noIntersectionList ts = true := by
      simpa [noIntersectionT, Bool.and_eq_true] using h
    have hrec : anyIsFunctionTypeOld ts = anyIsFunctionType ts :=
      anyIsFunctionTypeOld_eq_new ts hparts.2
    cases k with
    | atom => by_cases hcs : cs > 0 <;> simp [isFunctionTypeOld, isFunctionType, hcs]
    | union => by_cases hcs : cs > 0 <;>
        simp [isFunctionTypeOld, isFunctionType, hcs, hrec]
    | intersection => simp at hparts

/-- List version of isFunctionTypeOld_eq_new. -/
theorem anyIsFunctionTypeOld_eq_new : ∀ ts : List TsType,
    noIntersectionList ts = true → anyIsFunctionTypeOld ts = anyIsFunctionType ts
  | [], _ => rfl
  | t :: rest, h => by
    have hparts : noIntersectionT t = true ∧ noIntersectionList rest = true := by
      simpa [noIntersectionList, Bool.and_eq_true] using h
    simp [anyIsFunctionTypeOld, anyIsFunctionType,
      isFunctionTypeOld_eq_new t hparts.1, anyIsFunctionTypeOld_eq_new rest hparts.2]

end

mutual

/-- On trees without intersection nodes and without allowlisted symbols
the two versions of isClassType agree. -/
theorem isClassTypeOld_eq_new : ∀ t : TsType, noIntersectionT t = true →
    noAllowlistedT t = true → isClassTypeOld t = isClassType t
  | .mk cs ks s k ts, h, ha => by
    have hparts : (k != CompositeKind.intersection) = true ∧
        noIntersectionList ts = true := by
      simpa [noIntersectionT, Bool.and_eq_true] using h
    have haparts : isSerializableBuiltIn (TsType.mk cs ks s k ts) = false ∧
        noAllowlistedList ts = true := by
      simpa [noAllowlistedT, Bool.and_eq_true, Bool.not_eq_true'] using ha
    have hrec : anyIsClassTypeOld ts = anyIsClassType ts :=
      anyIsClassTypeOld_eq_new ts hparts.2 haparts.2
    cases k with
    | atom =>
      by_cases hks : ks > 0
      · simp [isClassTypeOld, isClassType, hks, haparts.1]
      · cases hcd : hasClassDeclaration s <;>
          simp [isClassTypeOld, isClassType, hks, hcd, haparts.1]
    | union =>
      by_cases hks : ks > 0
      · simp [isClassTypeOld, isClassType, hks, haparts.1]
      · cases hcd : hasClassDeclaration s <;>
          simp [isClassTypeOld, isClassType, hks, hcd, haparts.1, hrec]
    | intersection => simp at hparts

/-- List version of isClassTypeOld_eq_new. -/
theorem anyIsClassTypeOld_eq_new : ∀ ts : List TsType,
    noIntersectionList ts = true → noAllowlistedList ts = true →
    anyIsClassTypeOld ts = anyIsClassType ts
  | [], _, _ => rfl
  | t :: rest, h, ha => by
    have hparts : noIntersectionT t = true ∧ noIntersectionList rest = true := by
      simpa [noIntersectionList, Bool.and_eq_true] using h
    have haparts : noAllowlistedT t = true ∧ noAllowlistedList rest = true := by
      simpa [noAllowlistedList, Bool.and_eq_true] using ha
    simp [anyIsClassTypeOld, anyIsClassType,
      isClassTypeOld_eq_new t hparts.1 haparts.1,
      anyIsClassTypeOld_eq_new rest hparts.2 haparts.2]

end

/-- C8. The two rule implementations in the repository do not always
produce the same verdict: at this concrete input, a class instance of the
allowlisted built-in Date, the current version reports nothing while the
older version reports invalidProp. -/
theorem C8_versions_disagree_counterexample :
    classifyProp "createdAt"
        (TsType.mk 0 0 (some ⟨"Date", some [.classDeclaration]⟩) .atom [])
        "component.tsx" = Verdict.Serializable ∧
    classifyPropOld "createdAt"
        (TsType.mk 0 0 (some ⟨"Date", some [.classDeclaration]⟩) .atom [])
        "component.tsx" = Verdict.InvalidClass ∧
    classifyProp "createdAt"
        (TsType.mk 0 0 (some ⟨"Date", some [.classDeclaration]⟩) .atom [])
        "component.tsx" ≠
      classifyPropOld "createdAt"
        (TsType.mk 0 0 (some ⟨"Date", some [.classDeclaration]⟩) .atom [])
        "component.tsx" := by
  refine ⟨?_, ?_, ?_⟩ <;> decide

/-- C8 (amended). The two implementations agree on every input whose type
tree contains no intersection node and no symbol named after an
allowlisted built-in; the divergences are exactly the two features added
in the newer version, intersection recursion and the allowlist. -/
theorem C8_versions_agree_on_common_fragment (propName filename : String)
    (t : TsType) (h1 : noIntersectionT t = true) (h2 : noAllowlistedT t = true) :
    classifyPropOld propName t filename = classifyProp propName t filename := by
  simp only [classifyProp, classifyPropOld, isFunctionTypeOld_eq_new t h1,
    isClassTypeOld_eq_new t h1 h2]

/-- Witness for C8 (amended): both versions report a plain callback. -/
theorem C8_versions_agree_on_common_fragment_witness :
    classifyPropOld "onClick" (TsType.mk 1 0 none .atom []) "component.tsx" =
      classifyProp "onClick" (TsType.mk 1 0 none .atom []) "component.tsx" :=
  C8_versions_agree_on_common_fragment "onClick" "component.tsx"
    (TsType.mk 1 0 none .atom []) (by decide) (by decide)

/-- C9. A function-shaped field named exactly Action is Serializable: the
code tests the end-anchored pattern Action$, which the bare name Action
already matches, while the pattern of the spec requires a nonempty prefix
(the name Action has length six, the length of the suffix itself). -/
theorem C9_bare_Action_allowed (filename : String) (t : TsType)
    (hf : isFunctionType t = true) :
    classifyProp "Action" t filename = Verdict.Serializable ∧
    testActionSuffix "Action" = true ∧
    String.length "Action" = 6 := by
  have hA : testActionSuffix "Action" = true := by decide
  exact ⟨by simp [classifyProp, hf, hA], by decide, by decide⟩

/-- Witness for C9: a bare Action prop on a callable type. -/
theorem C9_bare_Action_allowed_witness :
    classifyProp "Action" (TsType.mk 1 0 none .atom []) "component.tsx" =
      Verdict.Serializable :=
  (C9_bare_Action_allowed "component.tsx" (TsType.mk 1 0 none .atom [])
    (by decide)).1

/-- C10. The reset exception requires a literal path separator right
before the error file name: with the bare paths error.tsx and
global-error.tsx a function-shaped reset prop is FunctionNotAction, while
the same prop with path app/error.tsx is Serializable. -/
theorem C10_reset_requires_separator (t : TsType)
    (hf : isFunctionType t = true) :
    classifyProp "reset" t "error.tsx" = Verdict.FunctionNotAction ∧
    classifyProp "reset" t "global-error.tsx" = Verdict.FunctionNotAction ∧
    classifyProp "reset" t "app/error.tsx" = Verdict.Serializable := by
  have h1 : (("reset" : String) == "action") = false := by decide
  have h2 : testActionSuffix "reset" = false := by decide
  have h3 : (("reset" : String) == "reset") = true := by decide
  have h4 : testErrorFilePath "error.tsx" = false := by decide
  have h5 : testErrorFilePath "global-error.tsx" = false := by decide
  have h6 : testErrorFilePath "app/error.tsx" = true := by decide
  refine ⟨?_, ?_, ?_⟩ <;> simp [classifyProp, hf, h1, h2, h3, h4, h5, h6]

/-- Witness for C10: a callable atom. -/
theorem C10_reset_requires_separator_witness :
    classifyProp "reset" (TsType.mk 1 0 none .atom []) "error.tsx" =
      Verdict.FunctionNotAction :=
  (C10_reset_requires_separator (TsType.mk 1 0 none .atom []) (by decide)).1
